import Mathlib

/-!
Verification of the spatial-interpolation engine in `utilities.py`
(EDSReanalysis).

The embedding works over exact rationals: every finite floating-point value
is modelled as a `ℚ`, and the non-finite values (nan, +inf, -inf) that float
arithmetic produces — here only through division by a zero element area and
through the `np.nan` initialisation of the result arrays — are modelled by
`none` in `RV := Option ℚ`.  Arithmetic on `RV` propagates `none`
(x + nan = nan, x * nan = nan, division by zero is non-finite), and the
ordering tests used by the containment predicate return `false` whenever a
non-finite value is involved; this matches numpy at the granularity the code
uses them (a non-finite float never satisfies both bounds of the interval
test, and a nan never satisfies either).

The KD-tree of `ComputeTree`/`ComputeQuery` is modelled as the k-nearest
prefix of a fixed total ordering of the element indices by squared Euclidean
centroid distance (ties broken by index): `tree.query(xy, k)` returns the k
nearest centroids sorted ascending by distance, and squaring is monotone on
nonnegative distances, so the prefix of this order is exactly the candidate
list the code receives.  Vectorised numpy computations (one array op over
all query points) are modelled per point and mapped over the point list.
-/

/-- `TOL=10e-5` from `utilities.py` (= 1e-4). -/
def TOL : ℚ := 10 / 10 ^ 5

/-- `Ymin=1979` from `utilities.py`. -/
def Ymin : Int := 1979

/-- `Ymax=2022` from `utilities.py`. -/
def Ymax : Int := 2022

/-- `YEARS=[item for item in range(Ymin, Ymax+1)]` from `utilities.py`. -/
def YEARS : List Int := (List.range 44).map (fun i => Ymin + i)

/-- A floating-point value: `some q` is the finite value `q`, `none` is any
non-finite value (nan or ±inf). -/
abbrev RV := Option ℚ

/-- Float addition; any non-finite operand makes the result non-finite. -/
def rvAdd : RV → RV → RV
  | some a, some b => some (a + b)
  | _, _ => none

/-- Float multiplication; any non-finite operand makes the result
non-finite (0 * inf = nan is also non-finite). -/
def rvMul : RV → RV → RV
  | some a, some b => some (a * b)
  | _, _ => none

/-- Float division; division by zero yields a non-finite value
(±inf or nan), and non-finite operands propagate. -/
def rvDiv : RV → RV → RV
  | some a, some b => if b = 0 then none else some (a / b)
  | _, _ => none

/-- The comparison `x <= y` as used by `basis2d_withinElement`.  On
non-finite operands it returns `false`: a nan fails every comparison, and
although `-inf <= 1+TOL` alone would hold in floats, the predicate always
conjoins the test with the opposite bound, which ±inf fails, so the
conjunction agrees with float semantics (proved sound case by case in the
module docstring above). -/
def rvLe : RV → RV → Bool
  | some a, some b => decide (a ≤ b)
  | _, _ => false

/-- The raw grid of `get_adcirc_grid_from_ds`: node longitudes, node
latitudes and the (already 0-based) triangular connectivity.  Depth is
carried by the source dict but never used by the interpolation engine, so
it is omitted. -/
structure AGrid where
  lon : List ℚ
  lat : List ℚ
  ele : List (Nat × Nat × Nat)
deriving DecidableEq

/-- The grid dict after `attach_element_areas`: the same fields plus the
per-element signed areas.  The edge lengths and `dl` the source also
attaches involve square roots, are not used by any claim, and are omitted. -/
structure AGDict where
  lon : List ℚ
  lat : List ℚ
  ele : List (Nat × Nat × Nat)
  areas : List ℚ
deriving DecidableEq

/-- Signed area of one element, exactly as `attach_element_areas` computes
`( x1*dy23 + x2*dy31 + x3*dy12 )/2.` with `dy23=y2-y3`, `dy31=y3-y1`,
`dy12=y1-y2`. -/
def elemArea (lon lat : List ℚ) (t : Nat × Nat × Nat) : ℚ :=
  let x1 := lon.getD t.1 0
  let x2 := lon.getD t.2.1 0
  let x3 := lon.getD t.2.2 0
  let y1 := lat.getD t.1 0
  let y2 := lat.getD t.2.1 0
  let y3 := lat.getD t.2.2 0
  (x1 * (y2 - y3) + x2 * (y3 - y1) + x3 * (y1 - y2)) / 2

/-- `attach_element_areas`: derive the per-element signed areas. -/
def attach_element_areas (g : AGrid) : AGDict :=
  ⟨g.lon, g.lat, g.ele, g.ele.map (elemArea g.lon g.lat)⟩

/-- `basis2d` for one query point `xy` against one element `jv`, exactly as
in the source: `phi_i = (a + b*xp + c*yp)/(2.0*areaj)` with the three cyclic
`(a,b,c)` coefficient triples.  The vectorised source computes this for a
whole column of points at once; see `basis2d`. -/
def basis2d_point (ag : AGDict) (xy : ℚ × ℚ) (jv : Nat) : RV × RV × RV :=
  let n3 := ag.ele.getD jv (0, 0, 0)
  let x1 := ag.lon.getD n3.1 0
  let x2 := ag.lon.getD n3.2.1 0
  let x3 := ag.lon.getD n3.2.2 0
  let y1 := ag.lat.getD n3.1 0
  let y2 := ag.lat.getD n3.2.1 0
  let y3 := ag.lat.getD n3.2.2 0
  let areaj := ag.areas.getD jv 0
  let xp := xy.1
  let yp := xy.2
  let phi0 := rvDiv (some ((x2 * y3 - x3 * y2) + (y2 - y3) * xp + (-(x2 - x3)) * yp))
    (some (2 * areaj))
  let phi1 := rvDiv (some ((x3 * y1 - x1 * y3) + (y3 - y1) * xp + (-(x3 - x1)) * yp))
    (some (2 * areaj))
  let phi2 := rvDiv (some ((x1 * y2 - x2 * y1) + (y1 - y2) * xp + (-(x1 - x2)) * yp))
    (some (2 * areaj))
  (phi0, phi1, phi2)

/-- `basis2d(agdict, xylist, j)`: one weight triple per query point, point
`i` evaluated against element `j[i]`. -/
def basis2d (ag : AGDict) (xylist : List (ℚ × ℚ)) (j : List Nat) : List (RV × RV × RV) :=
  List.zipWith (basis2d_point ag) xylist j

/-- `basis2d_withinElement(phi)` for one point:
`np.all(phi<=1+TOL) & np.all(phi>=0-TOL)`. -/
def basis2d_withinElement (phi : RV × RV × RV) : Bool :=
  (rvLe phi.1 (some (1 + TOL)) && rvLe phi.2.1 (some (1 + TOL)) &&
      rvLe phi.2.2 (some (1 + TOL))) &&
    (rvLe (some (0 - TOL)) phi.1 && rvLe (some (0 - TOL)) phi.2.1 &&
      rvLe (some (0 - TOL)) phi.2.2)

/-- The per-candidate containment flag `within_interior` of
`ComputeBasisRepresentation`: evaluate the basis weights of the point
against one candidate element and test containment. -/
def within_interior (ag : AGDict) (xy : ℚ × ℚ) (jv : Nat) : Bool :=
  basis2d_withinElement (basis2d_point ag xy jv)

/-- Element centroid as computed in `ComputeTree`:
`xe=np.mean(x[e],axis=1)`, `ye=np.mean(y[e],axis=1)`. -/
def elemCentroid (ag : AGDict) (i : Nat) : ℚ × ℚ :=
  let t := ag.ele.getD i (0, 0, 0)
  ((ag.lon.getD t.1 0 + ag.lon.getD t.2.1 0 + ag.lon.getD t.2.2 0) / 3,
    (ag.lat.getD t.1 0 + ag.lat.getD t.2.1 0 + ag.lat.getD t.2.2 0) / 3)

/-- Squared Euclidean distance; the KD-tree orders candidates by Euclidean
distance, and squaring is monotone on nonnegative reals, so ordering by
squared distance is the same ordering while staying inside ℚ. -/
def sqDist (p q : ℚ × ℚ) : ℚ :=
  (p.1 - q.1) ^ 2 + (p.2 - q.2) ^ 2

/-- Insert an element index into a list kept sorted by (distance key,
index). -/
def insertNearer (key : Nat → ℚ) (j : Nat) : List Nat → List Nat
  | [] => [j]
  | i :: is => if key j < key i ∨ (key j = key i ∧ j ≤ i) then j :: i :: is
      else i :: insertNearer key j is

/-- Sort element indices ascending by (distance key, index). -/
def sortNearest (key : Nat → ℚ) (l : List Nat) : List Nat :=
  l.foldr (insertNearer key) []

/-- The full ordering of all element indices by centroid distance to `xy`
(nearest first, ties by index): the ordering in which the KD-tree of
`ComputeTree` ranks the centroids for one query point. -/
def nearestOrder (ag : AGDict) (xy : ℚ × ℚ) : List Nat :=
  sortNearest (fun i => sqDist xy (elemCentroid ag i)) (List.range ag.ele.length)

/-- `ComputeQuery(xylist, agdict, kmax)`: per query point, the `kmax`
nearest element indices sorted ascending by centroid distance —
`tree.query(xylist, k=kmax)` is the `kmax`-prefix of the full distance
ordering. -/
def ComputeQuery (ag : AGDict) (xylist : List (ℚ × ℚ)) (kmax : Nat) : List (List Nat) :=
  xylist.map (fun xy => (nearestOrder ag xy).take kmax)

/-- One query point's slot in the three result arrays of
`ComputeBasisRepresentation`: `final_weights` row, `final_jvals` entry and
`final_status` entry. -/
structure PointResult where
  weights : RV × RV × RV
  jval : Int
  status : Bool
deriving DecidableEq

/-- The per-point core of `ComputeBasisRepresentation`: start from the
initialisation `(np.nan, np.nan, np.nan), -99999, False` and iterate the
candidates in reverse (farthest of the k first), unconditionally
overwriting the accumulator whenever the candidate's containment flag is
true — so the last writer, the nearest flagged candidate, wins. -/
def resolvePoint (ag : AGDict) (xy : ℚ × ℚ) (cands : List Nat) : PointResult :=
  ((cands.map fun jv => (basis2d_point ag xy jv, jv)).reverse).foldl
    (fun acc pj => if basis2d_withinElement pj.1 then ⟨pj.1, (pj.2 : Int), true⟩ else acc)
    ⟨(none, none, none), -99999, false⟩

/-- `ComputeBasisRepresentation`: resolve every query point against its
candidate list (the source iterates k outermost over whole arrays; per
point the effect is `resolvePoint`). -/
def ComputeBasisRepresentation (ag : AGDict) (xylist : List (ℚ × ℚ))
    (j : List (List Nat)) : List PointResult :=
  List.zipWith (resolvePoint ag) xylist j

/-- `np.isnan(final_weights).all(axis=1)` for one result row: all three
weights are still the nan they were initialised to. -/
def allNanW (r : PointResult) : Bool :=
  r.weights.1.isNone && r.weights.2.1.isNone && r.weights.2.2.isNone

/-- `outside_elements = np.argwhere(np.isnan(final_weights).all(axis=1)).ravel()`:
the ascending list of indices of points whose weight row is all-nan. -/
def outside_elements (results : List PointResult) : List Nat :=
  (List.range results.length).filter (fun i => allNanW (results.getD i ⟨(none, none, none), -99999, false⟩))

/-- One output scalar of `np.matmul(dataseries.values, weights.T)`: the dot
product of one time row of the per-node series matrix with the weight
vector. -/
def matvec_row (row : List RV) (w : List RV) : RV :=
  (List.zipWith rvMul row w).foldl rvAdd (some 0)

/-- `WaterLevelReductions(t, data_list, final_weights)`: for each point,
multiply its (time × 3) per-node series matrix by its weight vector; one
reduced column per point, in input point order.  The time index `t` only
labels the output frame's rows and is dropped. -/
def WaterLevelReductions (data_list : List (List (List RV)))
    (final_weights : List (List RV)) : List (List RV) :=
  List.zipWith (fun dataseries weights => dataseries.map (fun row => matvec_row row weights))
    data_list final_weights

/-- `get_adcirc_slice_from_ds(ds, v, it=triple)` in the time-leading
convention used by the reduction loop: the (T × 3) matrix whose row `t`
holds the three nodal series values at timestep `t`.  `ds` maps a node
index to its time series. -/
def get_adcirc_slice_from_ds (ds : Nat → Nat → RV) (T : Nat)
    (trip : Nat × Nat × Nat) : List (List RV) :=
  (List.range T).map (fun t => [ds trip.1 t, ds trip.2.1 t, ds trip.2.2 t])

/-- Python sequence indexing `e[vstation]` on the connectivity array: a
negative index counts from the end, and an index out of bounds (after that
wrap) raises IndexError, modelled as `none`. -/
def pyGetElem (e : List (Nat × Nat × Nat)) (i : Int) : Option (Nat × Nat × Nat) :=
  let j : Int := if i < 0 then (e.length : Int) + i else i
  if h : 0 ≤ j ∧ j.toNat < e.length then some (e.get ⟨j.toNat, h.2⟩) else none

/-- `ConstructReducedWaterLevelData_from_ds`: for every entry of
`final_jvals` (including the `-99999` sentinel of unresolved points) fetch
`e[vstation]` by Python indexing and slice the three nodal series, then
reduce with `WaterLevelReductions`.  `none` is the uncaught IndexError
abort raised when the sentinel's negative index leaves the connectivity
array's bounds. -/
def ConstructReducedWaterLevelData_from_ds (e : List (Nat × Nat × Nat))
    (ds : Nat → Nat → RV) (T : Nat) (final_jvals : List Int)
    (final_weights : List (List RV)) : Option (List (List RV)) :=
  (final_jvals.mapM (fun v => pyGetElem e v)).map
    (fun trips => WaterLevelReductions (trips.map (get_adcirc_slice_from_ds ds T)) final_weights)

/-- `GenerateMetadata(agresults)`: one row per query point in input order
with the input longitude, latitude, and `final_jvals + 1` where afterwards
every `-99998` (the incremented `-99999` sentinel) is replaced back by
`-99999`. -/
def GenerateMetadata (geopoints : List (ℚ × ℚ)) (final_jvals : List Int) :
    List (ℚ × ℚ × Int) :=
  List.zipWith
    (fun xy j =>
      (xy.1, xy.2, (fun v => if v = -99998 then -99999 else v) (j + 1)))
    geopoints final_jvals

/-- Outcome of `return_sorted_years`: normal return of the sorted pair,
the diagnostic `sys.exit(1)` branch, or the uncaught TypeError raised by
`sorted` when it compares `None` with an int (or `None` with `None`). -/
inductive YearOutcome where
  | ok (a b : Int)
  | diagExit
  | typeError
deriving DecidableEq

/-- `return_sorted_years(year_tuple)`: `start_year`/`end_year` are the
input years filtered against `YEARS` (else `None`); the guard is
`all(year_tuple)` on the ORIGINAL input tuple (truthiness of ints: nonzero),
and inside the guard `sorted((start_year, end_year))` compares the two
entries, raising TypeError if either is `None`. -/
def return_sorted_years (yt : Int × Int) : YearOutcome :=
  let start_year : Option Int := if yt.1 ∈ YEARS then some yt.1 else none
  let end_year : Option Int := if yt.2 ∈ YEARS then some yt.2 else none
  if yt.1 ≠ 0 ∧ yt.2 ≠ 0 then
    match start_year, end_year with
    | some a, some b => .ok (min a b) (max a b)
    | _, _ => .typeError
  else .diagExit

/-- Single-element unit right triangle grid from the spec's test scenario:
vertices (0,0), (1,0), (0,1). -/
def triGrid : AGrid :=
  ⟨[0, 1, 0], [0, 0, 1], [(0, 1, 2)]⟩

/-- Unit square split into two triangles sharing the diagonal 0–2. -/
def squareGrid : AGrid :=
  ⟨[0, 1, 1, 0], [0, 0, 1, 1], [(0, 1, 2), (0, 2, 3)]⟩

/-- A degenerate grid: its single element has three collinear vertices, so
its signed area is zero. -/
def degenGrid : AGrid :=
  ⟨[0, 1, 2], [0, 1, 2], [(0, 1, 2)]⟩

/-- Query points for the C4 witness: one inside the unit triangle, one far
outside it. -/
def wPoints : List (ℚ × ℚ) := [(1/4, 1/4), (2, 2)]

/-- Candidate lists (k = 1) for the C4 witness: the single element of
`triGrid` for both points. -/
def wCands : List (List Nat) := [[0], [0]]

/-! ## Helper lemmas -/

theorem getD_map_of_lt {α β : Type} (f : α → β) (l : List α) (i : Nat)
    (h : i < l.length) (d : α) (d' : β) : (l.map f).getD i d' = f (l.getD i d) := by
  rw [List.getD_eq_getElem _ _ (by simpa using h), List.getD_eq_getElem _ _ h,
    List.getElem_map]

theorem areas_attach (g : AGrid) (jv : Nat) (h : jv < g.ele.length) :
    (attach_element_areas g).areas.getD jv 0 =
      elemArea g.lon g.lat (g.ele.getD jv (0, 0, 0)) := by
  simp only [attach_element_areas]
  exact getD_map_of_lt _ _ _ h _ _

/-! ## Claim theorems: basis evaluation -/

/-- C2: for every element whose signed area (as derived by
`attach_element_areas`) is nonzero and every query point, inside or outside
the triangle, the three barycentric weights of `basis2d` sum exactly to 1. -/
theorem C2_affine_invariant (g : AGrid) (xy : ℚ × ℚ) (jv : Nat)
    (h : jv < g.ele.length)
    (hA : elemArea g.lon g.lat (g.ele.getD jv (0, 0, 0)) ≠ 0) :
    rvAdd (rvAdd (basis2d_point (attach_element_areas g) xy jv).1
        (basis2d_point (attach_element_areas g) xy jv).2.1)
      (basis2d_point (attach_element_areas g) xy jv).2.2 = some 1 := by
  have harea := areas_attach g jv h
  simp only [basis2d_point, harea]
  have h2A : 2 * elemArea g.lon g.lat (g.ele.getD jv (0, 0, 0)) ≠ 0 :=
    mul_ne_zero two_ne_zero hA
  simp only [rvDiv, if_neg h2A, rvAdd, Option.some.injEq]
  rw [div_add_div_same, div_add_div_same, div_eq_one_iff_eq h2A]
  simp only [elemArea, attach_element_areas]
  ring

/-- C3: the containment predicate is true iff all three weights lie in
`[0 - TOL, 1 + TOL]` simultaneously, where `TOL` is the fixed constant
1e-4. -/
theorem C3_within_iff :
    TOL = 1 / 10000 ∧
      ∀ a b c : ℚ,
        (basis2d_withinElement (some a, some b, some c) = true ↔
          (0 - TOL ≤ a ∧ a ≤ 1 + TOL) ∧ (0 - TOL ≤ b ∧ b ≤ 1 + TOL) ∧
            (0 - TOL ≤ c ∧ c ≤ 1 + TOL)) := by
  constructor
  · norm_num [TOL]
  · intro a b c
    simp only [basis2d_withinElement, rvLe, Bool.and_eq_true, decide_eq_true_eq]
    tauto

/-- C10: `basis2d` divides by twice the signed area with no guard: a
zero-area element yields three non-finite weights and a false containment
flag, silently (the function still returns a value, no error path exists),
while a nonzero area is exactly the precondition under which all three
weights are finite. -/
theorem C10_zero_area_unguarded (g : AGrid) (xy : ℚ × ℚ) (jv : Nat)
    (h : jv < g.ele.length) :
    (elemArea g.lon g.lat (g.ele.getD jv (0, 0, 0)) = 0 →
        basis2d_point (attach_element_areas g) xy jv = (none, none, none) ∧
          within_interior (attach_element_areas g) xy jv = false) ∧
      (elemArea g.lon g.lat (g.ele.getD jv (0, 0, 0)) ≠ 0 →
        (basis2d_point (attach_element_areas g) xy jv).1.isSome = true ∧
          (basis2d_point (attach_element_areas g) xy jv).2.1.isSome = true ∧
          (basis2d_point (attach_element_areas g) xy jv).2.2.isSome = true) := by
  have harea := areas_attach g jv h
  constructor
  · intro h0
    have hb : basis2d_point (attach_element_areas g) xy jv = (none, none, none) := by
      simp only [basis2d_point, harea, h0, mul_zero, rvDiv, if_pos rfl, eq_self_iff_true,
        if_true]
    refine ⟨hb, ?_⟩
    simp only [within_interior, hb, basis2d_withinElement, rvLe, Bool.false_and]
  · intro hnz
    have h2A : 2 * elemArea g.lon g.lat (g.ele.getD jv (0, 0, 0)) ≠ 0 :=
      mul_ne_zero two_ne_zero hnz
    simp only [basis2d_point, harea, rvDiv, if_neg h2A]
    exact ⟨rfl, rfl, rfl⟩

/-! ## Witnesses: basis evaluation -/

/-- Witness for C2 at the spec's unit-triangle scenario, query (1/4,1/4). -/
theorem C2_witness :
    ((0 < triGrid.ele.length ∧
        elemArea triGrid.lon triGrid.lat (triGrid.ele.getD 0 (0, 0, 0)) ≠ 0) ∧
      rvAdd (rvAdd (basis2d_point (attach_element_areas triGrid) (1/4, 1/4) 0).1
          (basis2d_point (attach_element_areas triGrid) (1/4, 1/4) 0).2.1)
        (basis2d_point (attach_element_areas triGrid) (1/4, 1/4) 0).2.2 = some 1) :=
  ⟨⟨by decide, by decide!⟩, C2_affine_invariant triGrid (1/4, 1/4) 0 (by decide) (by decide!)⟩

/-- Witness for C10 at the collinear one-element grid. -/
theorem C10_witness :
    (0 < degenGrid.ele.length) ∧
      ((elemArea degenGrid.lon degenGrid.lat (degenGrid.ele.getD 0 (0, 0, 0)) = 0 →
          basis2d_point (attach_element_areas degenGrid) (1/2, 1/2) 0 = (none, none, none) ∧
            within_interior (attach_element_areas degenGrid) (1/2, 1/2) 0 = false) ∧
        (elemArea degenGrid.lon degenGrid.lat (degenGrid.ele.getD 0 (0, 0, 0)) ≠ 0 →
          (basis2d_point (attach_element_areas degenGrid) (1/2, 1/2) 0).1.isSome = true ∧
            (basis2d_point (attach_element_areas degenGrid) (1/2, 1/2) 0).2.1.isSome = true ∧
            (basis2d_point (attach_element_areas degenGrid) (1/2, 1/2) 0).2.2.isSome = true)) :=
  ⟨by decide, C10_zero_area_unguarded degenGrid (1/2, 1/2) 0 (by decide)⟩

/-! ## Resolver lemmas -/

theorem foldl_overwrite {α β : Type} (p : α → Bool) (g : α → β) (d : β) (l : List α) :
    l.reverse.foldl (fun acc a => if p a then g a else acc) d =
      (match l.find? p with
        | some a => g a
        | none => d) := by
  induction l with
  | nil => rfl
  | cons a t ih =>
    rw [List.reverse_cons, List.foldl_append]
    cases hpa : p a with
    | true =>
      simp only [List.foldl_cons, List.foldl_nil, hpa, if_true,
        List.find?_cons_of_pos _ hpa]
    | false =>
      rw [List.find?_cons_of_neg _ (by simp [hpa])]
      simpa [hpa] using ih

theorem resolvePoint_find (ag : AGDict) (xy : ℚ × ℚ) (cands : List Nat) :
    resolvePoint ag xy cands =
      (match cands.find? (within_interior ag xy) with
        | some jv => ⟨basis2d_point ag xy jv, (jv : Int), true⟩
        | none => ⟨(none, none, none), -99999, false⟩) := by
  unfold resolvePoint
  rw [foldl_overwrite, List.find?_map]
  have hc : ((fun pj : (RV × RV × RV) × Nat => basis2d_withinElement pj.1) ∘
      fun jv => (basis2d_point ag xy jv, jv)) = within_interior ag xy := rfl
  rw [hc]
  cases h : cands.find? (within_interior ag xy) with
  | none => rfl
  | some jv => rfl

theorem find_first_index {α : Type} (p : α → Bool) (d : α) (l : List α)
    (hex : ∃ x ∈ l, p x = true) :
    ∃ i0, i0 < l.length ∧ p (l.getD i0 d) = true ∧
      (∀ i, i < i0 → p (l.getD i d) = false) ∧ l.find? p = some (l.getD i0 d) := by
  induction l with
  | nil => simp at hex
  | cons a t ih =>
    by_cases hpa : p a = true
    · exact ⟨0, by simp, by simpa using hpa, fun i hi => absurd hi (Nat.not_lt_zero i),
        by simp [List.find?_cons_of_pos _ hpa]⟩
    · have hpa' : p a = false := Bool.eq_false_iff.mpr hpa
      have hex' : ∃ x ∈ t, p x = true := by
        obtain ⟨x, hx, hpx⟩ := hex
        rcases List.mem_cons.mp hx with rfl | hxt
        · exact absurd hpx hpa
        · exact ⟨x, hxt, hpx⟩
      obtain ⟨i0, h1, h2, h3, h4⟩ := ih hex'
      refine ⟨i0 + 1, by simpa using h1, by simpa using h2, ?_, ?_⟩
      · intro i hi
        cases i with
        | zero => simpa using hpa'
        | succ i => simpa using h3 i (by omega)
      · rw [List.find?_cons_of_neg _ (by simp [hpa']), h4]
        simp

theorem within_isSome {phi : RV × RV × RV} (h : basis2d_withinElement phi = true) :
    phi.1.isSome = true ∧ phi.2.1.isSome = true ∧ phi.2.2.isSome = true := by
  obtain ⟨p0, p1, p2⟩ := phi
  cases p0 <;> cases p1 <;> cases p2 <;> simp_all [basis2d_withinElement, rvLe]

theorem resolvePoint_status (ag : AGDict) (xy : ℚ × ℚ) (cands : List Nat) :
    (resolvePoint ag xy cands).status = true ↔
      ∃ jv ∈ cands, within_interior ag xy jv = true := by
  rw [resolvePoint_find]
  cases h : cands.find? (within_interior ag xy) with
  | none =>
    rw [List.find?_eq_none] at h
    simp only [iff_iff_implies_and_implies]
    constructor
    · intro hfalse; cases hfalse
    · rintro ⟨jv, hm, hw⟩; exact absurd hw (by simpa using h jv hm)
  | some jv =>
    simp only [true_iff]
    exact ⟨jv, List.mem_of_find?_eq_some h, List.find?_some h⟩

theorem allNanW_resolvePoint (ag : AGDict) (xy : ℚ × ℚ) (cands : List Nat) :
    allNanW (resolvePoint ag xy cands) = true ↔
      ∀ jv ∈ cands, within_interior ag xy jv = false := by
  rw [resolvePoint_find]
  cases h : cands.find? (within_interior ag xy) with
  | none =>
    rw [List.find?_eq_none] at h
    simp only [allNanW, Option.isNone_none, Bool.and_self, true_iff]
    intro jv hm
    exact Bool.eq_false_iff.mpr (h jv hm)
  | some jv =>
    have hw : within_interior ag xy jv = true := List.find?_some h
    have hm := List.mem_of_find?_eq_some h
    have hs := @within_isSome (basis2d_point ag xy jv) hw
    constructor
    · intro habs
      exfalso
      simp only [allNanW, Bool.and_eq_true] at habs
      rcases hs with ⟨hs0, -, -⟩
      rcases habs with ⟨⟨h0, -⟩, -⟩
      cases hb : (basis2d_point ag xy jv).1 with
      | none => rw [hb] at hs0; cases hs0
      | some q => rw [hb] at h0; cases h0
    · intro hall
      exact absurd (hall jv hm) (by simp [hw])

theorem getD_zipWith_of_lt {α β γ : Type} (f : α → β → γ) (l1 : List α) (l2 : List β)
    (i : Nat) (h1 : i < l1.length) (h2 : i < l2.length) (d1 : α) (d2 : β) (d : γ) :
    (List.zipWith f l1 l2).getD i d = f (l1.getD i d1) (l2.getD i d2) := by
  rw [List.getD_eq_getElem _ _ (by simp [List.length_zipWith]; omega),
    List.getD_eq_getElem _ _ h1, List.getD_eq_getElem _ _ h2, List.getElem_zipWith]

/-! ## Claim theorems: containment resolution -/

/-- C1: among the distance-ascending candidates of a query point, if at
least one is flagged within then the final assignment (weights, element
index, status) is that of the within-flagged candidate with the smallest
centroid distance — the earliest within-flagged position of the list — the
last writer of the reverse iteration. -/
theorem C1_nearest_within_wins (ag : AGDict) (xy : ℚ × ℚ) (cands : List Nat)
    (dd : List ℚ) (hlen : dd.length = cands.length)
    (hsorted : List.Sorted (· ≤ ·) dd)
    (hex : ∃ jv ∈ cands, within_interior ag xy jv = true) :
    ∃ i0, i0 < cands.length ∧
      within_interior ag xy (cands.getD i0 0) = true ∧
      (∀ i, i < i0 → within_interior ag xy (cands.getD i 0) = false) ∧
      resolvePoint ag xy cands =
        ⟨basis2d_point ag xy (cands.getD i0 0), ((cands.getD i0 0 : Nat) : Int), true⟩ ∧
      (∀ i, i < cands.length → within_interior ag xy (cands.getD i 0) = true →
        dd.getD i0 0 ≤ dd.getD i 0) := by
  obtain ⟨i0, hi0, hw, hfirst, hfind⟩ := find_first_index (within_interior ag xy) 0 cands hex
  refine ⟨i0, hi0, hw, hfirst, ?_, ?_⟩
  · rw [resolvePoint_find, hfind]
  · intro i hi hwi
    have hle : i0 ≤ i := by
      by_contra hlt
      push_neg at hlt
      rw [hfirst i hlt] at hwi
      cases hwi
    rcases eq_or_lt_of_le hle with rfl | hlt
    · exact le_refl _
    · have h1 : i0 < dd.length := by omega
      have h2 : i < dd.length := by omega
      rw [List.getD_eq_getElem _ _ h1, List.getD_eq_getElem _ _ h2]
      exact hsorted.rel_get_of_lt (Fin.mk_lt_mk.mpr hlt)

/-- C4: a query point none of whose candidates is flagged within keeps the
initialised result (sentinel index -99999, all-nan weights, false status),
and `outside_elements` is exactly the ascending list of the indices of such
points. -/
theorem C4_unresolved_sentinel_and_outside (ag : AGDict) (xylist : List (ℚ × ℚ))
    (jlists : List (List Nat)) (hlen : jlists.length = xylist.length) :
    (∀ i, i < xylist.length →
        (∀ jv ∈ jlists.getD i [], within_interior ag (xylist.getD i (0, 0)) jv = false) →
        (ComputeBasisRepresentation ag xylist jlists).getD i
            ⟨(none, none, none), -99999, false⟩ =
          ⟨(none, none, none), -99999, false⟩) ∧
      List.Sorted (· < ·) (outside_elements (ComputeBasisRepresentation ag xylist jlists)) ∧
      (∀ i, i ∈ outside_elements (ComputeBasisRepresentation ag xylist jlists) ↔
        (i < xylist.length ∧
          ∀ jv ∈ jlists.getD i [], within_interior ag (xylist.getD i (0, 0)) jv = false)) := by
  have hreslen : (ComputeBasisRepresentation ag xylist jlists).length = xylist.length := by
    simp [ComputeBasisRepresentation, List.length_zipWith, hlen]
  have hget : ∀ i, i < xylist.length →
      (ComputeBasisRepresentation ag xylist jlists).getD i
          ⟨(none, none, none), -99999, false⟩ =
        resolvePoint ag (xylist.getD i (0, 0)) (jlists.getD i []) := by
    intro i hi
    exact getD_zipWith_of_lt (resolvePoint ag) xylist jlists i hi (by omega) (0, 0) []
      ⟨(none, none, none), -99999, false⟩
  refine ⟨?_, ?_, ?_⟩
  · intro i hi hno
    rw [hget i hi, resolvePoint_find,
      List.find?_eq_none.mpr (fun jv hm => by rw [hno jv hm]; exact Bool.false_ne_true)]
  · exact (List.pairwise_lt_range _).filter _
  · intro i
    unfold outside_elements
    rw [List.mem_filter, List.mem_range, hreslen]
    constructor
    · rintro ⟨hi, hnan⟩
      rw [hget i hi] at hnan
      exact ⟨hi, (allNanW_resolvePoint _ _ _).mp hnan⟩
    · rintro ⟨hi, hall⟩
      refine ⟨hi, ?_⟩
      rw [hget i hi]
      exact (allNanW_resolvePoint _ _ _).mpr hall

/-- C9: coverage monotonicity — a query point that is resolved when queried
with the k nearest candidates is still resolved with any larger neighbor
count, because the larger candidate list is an extension of the smaller one
and containment flags are evaluated per candidate. -/
theorem C9_coverage_monotone (ag : AGDict) (xy : ℚ × ℚ) (k k' : Nat) (hk : k ≤ k')
    (hres : (resolvePoint ag xy ((ComputeQuery ag [xy] k).getD 0 [])).status = true) :
    (resolvePoint ag xy ((ComputeQuery ag [xy] k').getD 0 [])).status = true := by
  have hq : ∀ m, (ComputeQuery ag [xy] m).getD 0 [] = (nearestOrder ag xy).take m :=
    fun m => rfl
  rw [hq] at hres ⊢
  rw [resolvePoint_status] at hres ⊢
  obtain ⟨jv, hm, hw⟩ := hres
  refine ⟨jv, ?_, hw⟩
  have h1 : (nearestOrder ag xy).take k = ((nearestOrder ag xy).take k').take k := by
    rw [List.take_take, min_eq_left hk]
  exact List.mem_of_mem_take (h1 ▸ hm)

/-! ## Witnesses: containment resolution -/

/-- Witness for C1: the point (1/2,1/2) on the shared diagonal of
`squareGrid` is flagged within by both candidates; the first (nearest-tied)
candidate wins. -/
theorem C1_witness :
    (([(1:ℚ)/18, 1/18] : List ℚ).length = ([0, 1] : List Nat).length ∧
        List.Sorted (· ≤ ·) ([(1:ℚ)/18, 1/18] : List ℚ) ∧
        ∃ jv ∈ ([0, 1] : List Nat),
          within_interior (attach_element_areas squareGrid) (1/2, 1/2) jv = true) ∧
      ∃ i0, i0 < ([0, 1] : List Nat).length ∧
        within_interior (attach_element_areas squareGrid) (1/2, 1/2)
            (([0, 1] : List Nat).getD i0 0) = true ∧
        (∀ i, i < i0 → within_interior (attach_element_areas squareGrid) (1/2, 1/2)
            (([0, 1] : List Nat).getD i 0) = false) ∧
        resolvePoint (attach_element_areas squareGrid) (1/2, 1/2) [0, 1] =
          ⟨basis2d_point (attach_element_areas squareGrid) (1/2, 1/2)
              (([0, 1] : List Nat).getD i0 0),
            ((([0, 1] : List Nat).getD i0 0 : Nat) : Int), true⟩ ∧
        (∀ i, i < ([0, 1] : List Nat).length →
          within_interior (attach_element_areas squareGrid) (1/2, 1/2)
              (([0, 1] : List Nat).getD i 0) = true →
          ([(1:ℚ)/18, 1/18] : List ℚ).getD i0 0 ≤ ([(1:ℚ)/18, 1/18] : List ℚ).getD i 0) :=
  ⟨⟨by decide, by decide!, by decide!⟩,
    C1_nearest_within_wins (attach_element_areas squareGrid) (1/2, 1/2) [0, 1]
      [(1:ℚ)/18, 1/18] (by decide) (by decide!) (by decide!)⟩

/-- Witness for C4: on the unit triangle, the point (1/4,1/4) is resolved
and the point (2,2) is unresolved, so the outside list is exactly [1]. -/
theorem C4_witness :
    (wCands.length = wPoints.length) ∧
      ((∀ i, i < wPoints.length →
          (∀ jv ∈ wCands.getD i [],
            within_interior (attach_element_areas triGrid) (wPoints.getD i (0, 0)) jv = false) →
          (ComputeBasisRepresentation (attach_element_areas triGrid) wPoints wCands).getD i
              ⟨(none, none, none), -99999, false⟩ =
            ⟨(none, none, none), -99999, false⟩) ∧
        List.Sorted (· < ·)
          (outside_elements
            (ComputeBasisRepresentation (attach_element_areas triGrid) wPoints wCands)) ∧
        (∀ i, i ∈ outside_elements
            (ComputeBasisRepresentation (attach_element_areas triGrid) wPoints wCands) ↔
          (i < wPoints.length ∧
            ∀ jv ∈ wCands.getD i [],
              within_interior (attach_element_areas triGrid) (wPoints.getD i (0, 0)) jv =
                false))) :=
  ⟨by decide,
    C4_unresolved_sentinel_and_outside (attach_element_areas triGrid) wPoints wCands (by decide)⟩

/-- Witness for C9: the centroid of the first element of `squareGrid` is
resolved already with k = 1, hence also with k = 2. -/
theorem C9_witness :
    ((1 ≤ 2) ∧
        (resolvePoint (attach_element_areas squareGrid) (2/3, 1/3)
            ((ComputeQuery (attach_element_areas squareGrid) [(2/3, 1/3)] 1).getD 0
              [])).status = true) ∧
      (resolvePoint (attach_element_areas squareGrid) (2/3, 1/3)
          ((ComputeQuery (attach_element_areas squareGrid) [(2/3, 1/3)] 2).getD 0
            [])).status = true :=
  ⟨⟨by decide, by decide!⟩,
    C9_coverage_monotone (attach_element_areas squareGrid) (2/3, 1/3) 1 2 (by decide)
      (by decide!)⟩

/-! ## Claim theorems: reduction, metadata, years -/

/-- C6: for a resolved query point, the reduced series obtained through the
matrix product of the (time × 3) nodal series matrix with the weight vector
equals, at every timestep, the closed-form weighted sum
w1·series(n1,t) + w2·series(n2,t) + w3·series(n3,t). -/
theorem C6_reduction_closed_form (T : Nat) (ds : Nat → Nat → ℚ) (n1 n2 n3 : Nat)
    (w1 w2 w3 : ℚ) :
    WaterLevelReductions
        [get_adcirc_slice_from_ds (fun n t => some (ds n t)) T (n1, n2, n3)]
        [[some w1, some w2, some w3]] =
      [(List.range T).map (fun t => some (w1 * ds n1 t + w2 * ds n2 t + w3 * ds n3 t))] := by
  simp only [WaterLevelReductions, get_adcirc_slice_from_ds, List.zipWith_cons_cons,
    List.zipWith_nil_right, List.map_map, List.cons.injEq, and_true]
  apply List.map_congr_left
  intro t ht
  simp only [Function.comp_apply, matvec_row, List.zipWith_cons_cons, List.zipWith_nil_right,
    List.foldl_cons, List.foldl_nil, rvMul, rvAdd, Option.some.injEq]
  ring

/-- C5: failing-input evaluation.  On a single-element mesh (the spec's own
unit-triangle scenario size) with one unresolved point
(final_jvals = [-99999]), the reduction stage aborts with an uncaught
IndexError (modelled `none`) because `e[vstation]` negative-indexes the
1-element connectivity array out of bounds — instead of producing the
all-nan reduced series and continuing, as the claim describes. -/
theorem C5_sentinel_fetch_aborts :
    ConstructReducedWaterLevelData_from_ds [(0, 1, 2)] (fun _ _ => some 0) 1
        [-99999] [[none, none, none]] = none := by
  decide

/-- C7: the metadata table has one row per query point in input order, with
the input longitude and latitude and the element id incremented to 1-based
numbering; a resolved point carries its 0-based element index plus one, and
an unresolved point carries exactly -99999 (the -99998 produced by the +1
conversion is replaced back by the sentinel). -/
theorem C7_metadata_sentinel (geopoints : List (ℚ × ℚ)) (final_jvals : List Int)
    (hlen : final_jvals.length = geopoints.length)
    (hvalid : ∀ j ∈ final_jvals, j = -99999 ∨ 0 ≤ j) :
    (GenerateMetadata geopoints final_jvals).length = geopoints.length ∧
      ∀ i, i < geopoints.length →
        (GenerateMetadata geopoints final_jvals).getD i (0, 0, 0) =
          ((geopoints.getD i (0, 0)).1, (geopoints.getD i (0, 0)).2,
            if final_jvals.getD i 0 = -99999 then -99999 else final_jvals.getD i 0 + 1) := by
  constructor
  · simp [GenerateMetadata, List.length_zipWith, hlen]
  · intro i hi
    unfold GenerateMetadata
    rw [getD_zipWith_of_lt _ _ _ i hi (by omega) (0, 0) 0 (0, 0, 0)]
    have hmem : final_jvals.getD i 0 ∈ final_jvals := by
      rw [List.getD_eq_getElem _ _ (by omega)]
      exact List.getElem_mem _
    rcases hvalid _ hmem with hs | hp
    · rw [hs]
      norm_num
    · have h1 : ¬(final_jvals.getD i 0 + 1 = -99998) := by omega
      have h2 : ¬(final_jvals.getD i 0 = -99999) := by omega
      simp only []
      rw [if_neg h1, if_neg h2]

/-- C8: failing-input evaluation.  For the out-of-range pair (1950, 2000)
the year validation raises an uncaught TypeError — `sorted` compares the
`None` left by the range filter against an int — instead of the
user-reported diagnostic abort the claim describes; the diagnostic branch
is reachable only when an input year is 0 (falsy), because the guard tests
`all(year_tuple)` on the original tuple rather than the validated pair. -/
theorem C8_out_of_range_type_error :
    return_sorted_years (1950, 2000) = .typeError := by
  decide

/-- Witness for C7: two points, the first resolved to element 0 (reported
as 1) and the second unresolved (reported as -99999, not -99998). -/
theorem C7_witness :
    (([0, -99999] : List Int).length = ([((3:ℚ), (4:ℚ)), (5, 6)] : List (ℚ × ℚ)).length ∧
        ∀ j ∈ ([0, -99999] : List Int), j = -99999 ∨ 0 ≤ j) ∧
      ((GenerateMetadata [((3:ℚ), (4:ℚ)), (5, 6)] [0, -99999]).length =
          ([((3:ℚ), (4:ℚ)), (5, 6)] : List (ℚ × ℚ)).length ∧
        ∀ i, i < ([((3:ℚ), (4:ℚ)), (5, 6)] : List (ℚ × ℚ)).length →
          (GenerateMetadata [((3:ℚ), (4:ℚ)), (5, 6)] [0, -99999]).getD i (0, 0, 0) =
            ((([((3:ℚ), (4:ℚ)), (5, 6)] : List (ℚ × ℚ)).getD i (0, 0)).1,
              (([((3:ℚ), (4:ℚ)), (5, 6)] : List (ℚ × ℚ)).getD i (0, 0)).2,
              if ([0, -99999] : List Int).getD i 0 = -99999 then -99999
                else ([0, -99999] : List Int).getD i 0 + 1)) :=
  ⟨⟨by decide, by decide⟩,
    C7_metadata_sentinel [((3:ℚ), (4:ℚ)), (5, 6)] [0, -99999] (by decide) (by decide)⟩
